import Mathlib

/-!
Verification of the TFRT reference-counting primitive (`ref_count.h` /
`ref_count.cc`): the `ReferenceCounted<SubClass>` mixin, the `RCReference<T>`
move-only handle, the free functions `FormRef` / `TakeRef`, and the global
diagnostic counter `total_reference_counted_objects`.

The embedding is sequential: each atomic read-modify-write of the source
(`fetch_add`, `fetch_sub`) is one indivisible step, which is exactly what the
atomicity of those operations provides in an interleaved execution.  The
32-bit unsigned `ref_count_` field is a `Nat` reduced mod `2^32`; the 64-bit
`size_t` global counter is a `Nat` reduced mod `2^64`.  Pointers are modelled
as naturals (addresses); a nullable `T*` is an `Option Nat`.
-/

/-- Modulus of the `unsigned` field `ref_count_` (32 bits). -/
def U32 : Nat := 4294967296

/-- Modulus of the `size_t` global counter (64 bits). -/
def U64 : Nat := 18446744073709551616

/-- State of one `ReferenceCounted<SubClass>` object: its `ref_count_` field
(an `unsigned`, kept `< 2^32` by reducing mod `U32`) and whether the object is
still live (`Destroy()` — `delete` by default — has not yet been invoked). -/
structure ReferenceCounted where
  ref_count_ : Nat
  live : Bool
deriving Repr, DecidableEq

/-- `ReferenceCounted() : ref_count_(1)` — a fresh object starts with count 1.
(The constructor also does `total_reference_counted_objects.fetch_add(1)`,
modelled at the world level by `stepLife`.) -/
def ReferenceCounted.new : ReferenceCounted := { ref_count_ := 1, live := true }

/-- `AddRef()`: `ref_count_.fetch_add(1)` — increment mod 2^32. -/
def ReferenceCounted.AddRef (o : ReferenceCounted) : ReferenceCounted :=
  { o with ref_count_ := (o.ref_count_ + 1) % U32 }

/-- `DropRef()`: `if (ref_count_.fetch_sub(1) == 1) Destroy();`.
`fetch_sub` returns the old value and stores `old - 1` mod 2^32 (unsigned
wrap-around, no underflow check).  `Destroy()` (`delete` of the most-derived
object by default) runs exactly when the old value was 1; it is modelled by
setting `live := false`.  Returns the new state and whether `Destroy` ran. -/
def ReferenceCounted.DropRef (o : ReferenceCounted) : ReferenceCounted × Bool :=
  let old := o.ref_count_
  let o1 : ReferenceCounted := { o with ref_count_ := (old + (U32 - 1)) % U32 }
  if old = 1 then ({ o1 with live := false }, true) else (o1, false)

/-- `IsUnique()`: `ref_count_.load() == 1`. -/
def ReferenceCounted.IsUnique (o : ReferenceCounted) : Bool :=
  o.ref_count_ == 1

/-- `~ReferenceCounted()` contains
`assert(ref_count_.load() == 0 && "Shouldn't destroy ... with references!");`.
`assert` is the standard C `assert`: compiled out when `NDEBUG` is defined.
This predicate says whether the assertion fires (terminating the process) in a
build configuration given by `ndebug`. -/
def destructorAssertFires (ndebug : Bool) (o : ReferenceCounted) : Bool :=
  !ndebug && !(o.ref_count_ == 0)

/-- One reference-count operation on a single object. -/
inductive RefOp
  | addRef
  | dropRef
deriving Repr, DecidableEq

/-- Apply one operation; the `Bool` reports whether `Destroy` was invoked. -/
def applyOp (o : ReferenceCounted) (op : RefOp) : ReferenceCounted × Bool :=
  match op with
  | .addRef => (o.AddRef, false)
  | .dropRef => o.DropRef

/-- Run a sequence of operations on one object. -/
def runOps : ReferenceCounted → List RefOp → ReferenceCounted
  | o, [] => o
  | o, op :: ops => runOps (applyOp o op).1 ops

/-- How many operations of the sequence invoked the destroy hook. -/
def destroyCount : ReferenceCounted → List RefOp → Nat
  | _, [] => 0
  | o, op :: ops =>
    (if (applyOp o op).2 then 1 else 0) + destroyCount (applyOp o op).1 ops

/-- Contract validity of a sequence: every operation is performed while the
object is still live (no use after `Destroy`). -/
def validOps : ReferenceCounted → List RefOp → Bool
  | _, [] => true
  | o, op :: ops => o.live && validOps (applyOp o op).1 ops

/-- Pointwise function update (a store to one memory cell). -/
def upd {α : Type} (f : Nat → α) (a : Nat) (v : α) : Nat → α :=
  fun x => if x = a then v else f x

/-- The value of an `RCReference<T>`: its single field `T* pointer_`,
a nullable raw pointer. -/
abbrev RCReference := Option Nat

/-- `RCReference() : pointer_(nullptr)` — the default-constructed handle. -/
def RCReference.defaultNew : RCReference := none

/-- A memory: the `ReferenceCounted` object at each address, the
`RCReference` cell at each handle address, and the global
`total_reference_counted_objects` counter (a `size_t`, kept `< 2^64`). -/
structure Mem where
  objs : Nat → ReferenceCounted
  handles : Nat → RCReference
  total_objects : Nat

/-- `pointer_->AddRef()` on the object at address `p`. -/
def Mem.memAddRef (m : Mem) (p : Nat) : Mem :=
  { m with objs := upd m.objs p (m.objs p).AddRef }

/-- `pointer_->DropRef()` on the object at address `p`.  When the drop
destroys the object, `delete` runs `~ReferenceCounted()`, which does
`total_reference_counted_objects.fetch_sub(1)` (mod 2^64). -/
def Mem.memDropRef (m : Mem) (p : Nat) : Mem :=
  let r := (m.objs p).DropRef
  { m with
      objs := upd m.objs p r.1,
      total_objects :=
        if r.2 then (m.total_objects + (U64 - 1)) % U64 else m.total_objects }

/-- `RCReference(RCReference&& other) : pointer_(other.pointer_)
{ other.pointer_ = nullptr; }` — move construction of a fresh handle cell
`newH` from the cell `other`: no reference count is touched. -/
def moveConstruct (m : Mem) (newH other : Nat) : Mem :=
  let v := m.handles other
  let m1 : Mem := { m with handles := upd m.handles newH v }
  { m1 with handles := upd m1.handles other none }

/-- `RCReference& operator=(RCReference&& other)`, executed line by line on
handle cells `me` (`this`) and `other`, which may alias (`me = other` is
self-move-assignment):
`if (pointer_) pointer_->DropRef();`
`pointer_ = other.pointer_;`
`other.pointer_ = nullptr;` -/
def moveAssign (m : Mem) (me other : Nat) : Mem :=
  let m1 :=
    match m.handles me with
    | some p => m.memDropRef p
    | none => m
  let v := m1.handles other
  let m2 : Mem := { m1 with handles := upd m1.handles me v }
  { m2 with handles := upd m2.handles other none }

/-- `~RCReference()`: `if (pointer_ != nullptr) pointer_->DropRef();`. -/
def handleDtor (m : Mem) (h : Nat) : Mem :=
  match m.handles h with
  | some p => m.memDropRef p
  | none => m

/-- `void reset(T* pointer = nullptr)`:
`if (pointer_ != nullptr) pointer_->DropRef(); pointer_ = pointer;`. -/
def reset (m : Mem) (h : Nat) (pointer : RCReference) : Mem :=
  let m1 :=
    match m.handles h with
    | some p => m.memDropRef p
    | none => m
  { m1 with handles := upd m1.handles h pointer }

/-- `T* release()`: `T* tmp = pointer_; pointer_ = nullptr; return tmp;`. -/
def release (m : Mem) (h : Nat) : Mem × RCReference :=
  ({ m with handles := upd m.handles h none }, m.handles h)

/-- `T* get() const { return pointer_; }` — a pure read, no assertion. -/
def rcGet (m : Mem) (h : Nat) : Mem × RCReference :=
  (m, m.handles h)

/-- `explicit operator bool() const { return pointer_ != nullptr; }`. -/
def rcBool (m : Mem) (h : Nat) : Bool :=
  (m.handles h).isSome

/-- `operator*` / `operator->` begin with
`assert(pointer_ && "null RCReference");`: in a build with assertions enabled
(`ndebug = false`) the assertion fires exactly on an empty handle. -/
def derefAssertFires (ndebug : Bool) (m : Mem) (h : Nat) : Bool :=
  !ndebug && (m.handles h).isNone

/-- `get()` contains no assertion at all (contrast `derefAssertFires`). -/
def getAssertFires (_ : Mem) (_ : Nat) : Bool := false

/-- `FormRef(T* pointer)`: `ref.pointer_ = pointer; pointer->AddRef();` —
wrap-and-increment.  Returns the new memory and the new handle's value. -/
def FormRef (m : Mem) (pointer : Nat) : Mem × RCReference :=
  (m.memAddRef pointer, some pointer)

/-- `TakeRef(T* pointer)`: `ref.pointer_ = pointer;` — adopt-without-increment;
no count is touched. -/
def TakeRef (m : Mem) (pointer : RCReference) : Mem × RCReference :=
  (m, pointer)

/-- `RCReference<T>::CopyRef() const`:
`if (!pointer_) return RCReference(); return FormRef(get());`. -/
def CopyRef (m : Mem) (h : Nat) : Mem × RCReference :=
  match m.handles h with
  | none => (m, RCReference.defaultNew)
  | some p => FormRef m p

/-- Construction/destruction events of `ReferenceCounted` objects,
process-wide. -/
inductive LifeEvent
  | construct
  | destruct
deriving Repr, DecidableEq

/-- Effect of one event on (number of live objects, value of
`total_reference_counted_objects`): the constructor does
`total_reference_counted_objects.fetch_add(1)`, the destructor
`total_reference_counted_objects.fetch_sub(1)`, both on a `size_t`
(mod 2^64). -/
def stepLife : Nat × Nat → LifeEvent → Nat × Nat
  | (l, t), .construct => (l + 1, (t + 1) % U64)
  | (l, t), .destruct => (l - 1, (t + (U64 - 1)) % U64)

/-- Run a sequence of lifecycle events. -/
def runLife : Nat × Nat → List LifeEvent → Nat × Nat
  | s, [] => s
  | s, e :: es => runLife (stepLife s e) es

/-- Validity of an event sequence given the current number of live objects:
only an existing (live) object can be destroyed. -/
def validLife : Nat → List LifeEvent → Bool
  | _, [] => true
  | l, .construct :: es => validLife (l + 1) es
  | l, .destruct :: es => decide (0 < l) && validLife (l - 1) es

/-- A concrete memory used by witnesses/counterexamples: handle 0 holds
object 0 (count 2, live); every other handle cell is empty; every other
object has count 1; two objects are live. -/
def mem1 : Mem :=
  { objs := fun a =>
      if a = 0 then { ref_count_ := 2, live := true }
      else { ref_count_ := 1, live := true },
    handles := fun h => if h = 0 then some 0 else none,
    total_objects := 2 }

/-- The new count stored by `DropRef` is old value minus one, mod 2^32. -/
theorem DropRef_count (o : ReferenceCounted) :
    (o.DropRef).1.ref_count_ = (o.ref_count_ + (U32 - 1)) % U32 := by
  simp only [ReferenceCounted.DropRef]
  split <;> rfl

/-- `DropRef` invokes `Destroy` exactly when the pre-decrement count is 1. -/
theorem DropRef_destroys_iff (o : ReferenceCounted) :
    (o.DropRef).2 = true ↔ o.ref_count_ = 1 := by
  simp only [ReferenceCounted.DropRef]
  split <;> simp_all

/-- After one operation, the object is dead exactly if that operation
destroyed it (otherwise liveness is unchanged). -/
theorem applyOp_live (o : ReferenceCounted) (op : RefOp) :
    (applyOp o op).1.live = (if (applyOp o op).2 then false else o.live) := by
  cases op with
  | addRef => rfl
  | dropRef =>
    simp only [applyOp, ReferenceCounted.DropRef]
    split <;> rfl

/-- A valid trace on a dead object must be empty. -/
theorem validOps_of_dead (o : ReferenceCounted) (ops : List RefOp)
    (hv : validOps o ops = true) (hd : o.live = false) : ops = [] := by
  cases ops with
  | nil => rfl
  | cons op ops => simp [validOps, hd] at hv

/-- Along any contract-valid trace on a live object, the destroy hook fires
exactly once if the object ends dead and never otherwise. -/
theorem destroyCount_of_valid : ∀ (ops : List RefOp) (o : ReferenceCounted),
    o.live = true → validOps o ops = true →
    destroyCount o ops = (if (runOps o ops).live then 0 else 1)
  | [], o, hl, _ => by simp [destroyCount, runOps, hl]
  | op :: ops, o, hl, hv => by
    have hv2 : validOps (applyOp o op).1 ops = true := by
      simp only [validOps, Bool.and_eq_true] at hv
      exact hv.2
    by_cases hd : (applyOp o op).2 = true
    · have hlive : (applyOp o op).1.live = false := by
        rw [applyOp_live, hd]
        rfl
      have hnil := validOps_of_dead _ _ hv2 hlive
      subst hnil
      simp [destroyCount, runOps, hd, hlive]
    · have hd' : (applyOp o op).2 = false := by
        simpa using hd
      have hlive : (applyOp o op).1.live = true := by
        rw [applyOp_live, hd']
        exact hl
      have ih := destroyCount_of_valid ops (applyOp o op).1 hlive hv2
      simp [destroyCount, runOps, hd', ih]

/-- Invariant: along a valid lifecycle trace, the global counter always equals
the number of live objects, mod 2^64. -/
theorem runLife_total_mod : ∀ (es : List LifeEvent) (l t : Nat),
    validLife l es = true → t = l % U64 →
    (runLife (l, t) es).2 = (runLife (l, t) es).1 % U64
  | [], _, _, _, ht => by simpa [runLife] using ht
  | .construct :: es, l, t, hv, ht => by
    have hv2 : validLife (l + 1) es = true := by
      simpa [validLife] using hv
    have ht2 : (t + 1) % U64 = (l + 1) % U64 := by
      subst ht
      simp only [U64]
      omega
    simpa [runLife, stepLife] using
      runLife_total_mod es (l + 1) ((t + 1) % U64) hv2 ht2
  | .destruct :: es, l, t, hv, ht => by
    have h0 : 0 < l ∧ validLife (l - 1) es = true := by
      simpa [validLife] using hv
    have ht2 : (t + (U64 - 1)) % U64 = (l - 1) % U64 := by
      subst ht
      have hl := h0.1
      simp only [U64] at hl ⊢
      omega
    simpa [runLife, stepLife] using
      runLife_total_mod es (l - 1) ((t + (U64 - 1)) % U64) h0.2 ht2


/-- C1: `DropRef` atomically decrements the count by one (mod 2^32), the
destroy hook is invoked exactly when that decrement observed the count
transition from 1 to 0, and along any contract-valid operation sequence on a
freshly constructed object at most one `DropRef` observes this transition —
exactly one when the object ends destroyed — so the destroy hook runs exactly
once. -/
theorem dropRef_decrement_and_single_destroy :
    (∀ o : ReferenceCounted,
      (o.DropRef).1.ref_count_ = (o.ref_count_ + (U32 - 1)) % U32) ∧
    (∀ o : ReferenceCounted, (o.DropRef).2 = true ↔ o.ref_count_ = 1) ∧
    (∀ ops : List RefOp, validOps ReferenceCounted.new ops = true →
      destroyCount ReferenceCounted.new ops =
        (if (runOps ReferenceCounted.new ops).live then 0 else 1)) :=
  ⟨DropRef_count, DropRef_destroys_iff,
   fun ops hv => destroyCount_of_valid ops ReferenceCounted.new rfl hv⟩

/-- Witness for C1 at the trace `[addRef, dropRef, dropRef]`: valid, and the
destroy hook fires exactly once. -/
theorem dropRef_decrement_and_single_destroy_witness :
    validOps ReferenceCounted.new [RefOp.addRef, RefOp.dropRef, RefOp.dropRef] = true ∧
    destroyCount ReferenceCounted.new [RefOp.addRef, RefOp.dropRef, RefOp.dropRef] = 1 :=
  ⟨by decide,
   by
    rw [dropRef_decrement_and_single_destroy.2.2
      [RefOp.addRef, RefOp.dropRef, RefOp.dropRef] (by decide)]
    decide⟩

/-- C2 counterexample: the destructor's check is the standard `assert`,
compiled out when `NDEBUG` is defined, so it is NOT enforced in every build
configuration: with `ndebug = true` and count 1 (non-zero) the assertion does
not fire. -/
theorem destructor_assert_not_always_enforced :
    ¬ (∀ (ndebug : Bool) (o : ReferenceCounted),
        o.ref_count_ ≠ 0 → destructorAssertFires ndebug o = true) := by
  intro h
  have h1 := h true { ref_count_ := 1, live := true } (by decide)
  simp [destructorAssertFires] at h1

/-- C2 amended: in a build with assertions enabled (`NDEBUG` not defined),
destroying a `ReferenceCounted` object whose count is non-zero fires the
destructor's assertion, terminating the process. -/
theorem destructor_assert_fires_when_enabled (o : ReferenceCounted)
    (h : o.ref_count_ ≠ 0) : destructorAssertFires false o = true := by
  simp only [destructorAssertFires, Bool.not_false, Bool.true_and, Bool.not_eq_true',
    beq_eq_false_iff_ne, ne_eq]
  exact h

/-- Witness for C2 (amended) at count 1. -/
theorem destructor_assert_fires_when_enabled_witness :
    destructorAssertFires false { ref_count_ := 1, live := true } = true :=
  destructor_assert_fires_when_enabled { ref_count_ := 1, live := true } (by decide)

/-- C3 counterexample: self-move-assignment of a non-empty handle DOES change
the referent's reference count: in `mem1`, handle 0 holds object 0 with
count 2; after `moveAssign mem1 0 0` the count is 1 and the handle is empty. -/
theorem moveAssign_self_changes_count :
    (mem1.objs 0).ref_count_ = 2 ∧
    ((moveAssign mem1 0 0).objs 0).ref_count_ = 1 ∧
    (moveAssign mem1 0 0).handles 0 = none := by
  refine ⟨by decide, by decide, by decide⟩

/-- C3 amended: move-construction never touches any reference count or the
global counter, the new handle receives the source's pointer and the source
becomes empty; move-assignment between DISTINCT handles whose destination is
empty likewise touches no count and transfers the pointer; but
self-move-assignment of a handle holding a unit drops that unit (the memory
becomes exactly the memory after `DropRef` on the referent, decrementing its
count) and leaves the handle empty. -/
theorem move_transfers_without_count_traffic :
    (∀ (m : Mem) (newH other : Nat), newH ≠ other →
      (moveConstruct m newH other).objs = m.objs ∧
      (moveConstruct m newH other).total_objects = m.total_objects ∧
      (moveConstruct m newH other).handles newH = m.handles other ∧
      (moveConstruct m newH other).handles other = none) ∧
    (∀ (m : Mem) (me other : Nat), me ≠ other → m.handles me = none →
      (moveAssign m me other).objs = m.objs ∧
      (moveAssign m me other).total_objects = m.total_objects ∧
      (moveAssign m me other).handles me = m.handles other ∧
      (moveAssign m me other).handles other = none) ∧
    (∀ (m : Mem) (h p : Nat), m.handles h = some p →
      (moveAssign m h h).objs = (m.memDropRef p).objs ∧
      (moveAssign m h h).total_objects = (m.memDropRef p).total_objects ∧
      (moveAssign m h h).handles h = none) := by
  refine ⟨?_, ?_, ?_⟩
  · intro m newH other hne
    refine ⟨rfl, rfl, ?_, ?_⟩
    · simp [moveConstruct, upd, hne]
    · simp [moveConstruct, upd]
  · intro m me other hne hnone
    refine ⟨?_, ?_, ?_, ?_⟩ <;> simp [moveAssign, upd, hnone, hne]
  · intro m h p hsome
    refine ⟨?_, ?_, ?_⟩ <;> simp [moveAssign, upd, hsome, Mem.memDropRef]

/-- Witness for C3 (amended): concrete move-construct into fresh cell 1 from
cell 0, move-assign of empty cell 1 from cell 0, and self-move of cell 0, all
in `mem1`. -/
theorem move_transfers_without_count_traffic_witness :
    ((moveConstruct mem1 1 0).objs = mem1.objs ∧
     (moveConstruct mem1 1 0).handles 1 = mem1.handles 0) ∧
    (moveAssign mem1 1 0).objs = mem1.objs ∧
    (moveAssign mem1 0 0).handles 0 = none :=
  ⟨⟨(move_transfers_without_count_traffic.1 mem1 1 0 (by decide)).1,
    (move_transfers_without_count_traffic.1 mem1 1 0 (by decide)).2.2.1⟩,
   (move_transfers_without_count_traffic.2.1 mem1 1 0 (by decide) (by decide)).1,
   (move_transfers_without_count_traffic.2.2 mem1 0 0 (by decide)).2.2⟩

/-- C4: move-assignment onto a handle currently owning a unit first drops that
unit (`DropRef` on its referent — the resulting objects and global counter are
exactly those after `memDropRef`), then stores the source's pointer; the
source cell ends null on every path, including self-move-assignment. -/
theorem moveAssign_drops_old_then_stores (m : Mem) (me other p : Nat)
    (h : m.handles me = some p) :
    (moveAssign m me other).objs = (m.memDropRef p).objs ∧
    (moveAssign m me other).total_objects = (m.memDropRef p).total_objects ∧
    (me ≠ other → (moveAssign m me other).handles me = m.handles other) ∧
    (moveAssign m me other).handles other = none := by
  refine ⟨?_, ?_, ?_, ?_⟩
  · simp [moveAssign, h, Mem.memDropRef]
  · simp [moveAssign, h, Mem.memDropRef]
  · intro hne
    simp [moveAssign, h, Mem.memDropRef, upd, hne]
  · simp [moveAssign, upd, h]

/-- Witness for C4 in `mem1`: handle 0 owns object 0; move-assign from the
empty handle 1. -/
theorem moveAssign_drops_old_then_stores_witness :
    (moveAssign mem1 0 1).objs = (mem1.memDropRef 0).objs ∧
    (moveAssign mem1 0 1).handles 0 = mem1.handles 1 ∧
    (moveAssign mem1 0 1).handles 1 = none :=
  ⟨(moveAssign_drops_old_then_stores mem1 0 1 0 (by decide)).1,
   (moveAssign_drops_old_then_stores mem1 0 1 0 (by decide)).2.2.1 (by decide),
   (moveAssign_drops_old_then_stores mem1 0 1 0 (by decide)).2.2.2⟩

/-- C5: `CopyRef` on a non-empty handle is exactly `FormRef` (wrap-and-
increment) on the held raw pointer: the new handle holds the same pointer, the
referent's count goes up by one (mod 2^32), every other object, every handle
cell and the global counter are untouched; `CopyRef` on an empty handle
returns a default-constructed empty handle and touches nothing. -/
theorem copyRef_wrap_and_increment :
    (∀ (m : Mem) (h p : Nat), m.handles h = some p →
      CopyRef m h = FormRef m p ∧
      (CopyRef m h).2 = some p ∧
      ((CopyRef m h).1.objs p).ref_count_ = ((m.objs p).ref_count_ + 1) % U32 ∧
      (∀ q, q ≠ p → (CopyRef m h).1.objs q = m.objs q) ∧
      (CopyRef m h).1.handles = m.handles ∧
      (CopyRef m h).1.total_objects = m.total_objects) ∧
    (∀ (m : Mem) (h : Nat), m.handles h = none →
      CopyRef m h = (m, RCReference.defaultNew)) := by
  constructor
  · intro m h p hsome
    refine ⟨?_, ?_, ?_, ?_, ?_, ?_⟩
    · simp [CopyRef, hsome]
    · simp [CopyRef, hsome, FormRef]
    · simp [CopyRef, hsome, FormRef, Mem.memAddRef, upd, ReferenceCounted.AddRef]
    · intro q hq
      simp [CopyRef, hsome, FormRef, Mem.memAddRef, upd, hq]
    · simp [CopyRef, hsome, FormRef, Mem.memAddRef]
    · simp [CopyRef, hsome, FormRef, Mem.memAddRef]
  · intro m h hnone
    simp [CopyRef, hnone]

/-- Witness for C5 in `mem1`: copy of handle 0 (holding object 0, count 2)
and of the empty handle 1. -/
theorem copyRef_wrap_and_increment_witness :
    ((CopyRef mem1 0).1.objs 0).ref_count_ = ((mem1.objs 0).ref_count_ + 1) % U32 ∧
    (CopyRef mem1 0).2 = some 0 ∧
    CopyRef mem1 1 = (mem1, RCReference.defaultNew) :=
  ⟨(copyRef_wrap_and_increment.1 mem1 0 0 (by decide)).2.2.1,
   (copyRef_wrap_and_increment.1 mem1 0 0 (by decide)).2.1,
   copyRef_wrap_and_increment.2 mem1 1 (by decide)⟩

/-- C6: `release()` followed by `TakeRef` (adopt-without-increment) on the
returned pointer round-trips: no object count and not the global counter is
touched anywhere in the pair, and the resulting handle holds exactly the
pointer the original handle held. -/
theorem release_takeRef_roundtrip (m : Mem) (h : Nat) :
    (TakeRef (release m h).1 (release m h).2).1.objs = m.objs ∧
    (TakeRef (release m h).1 (release m h).2).1.total_objects = m.total_objects ∧
    (TakeRef (release m h).1 (release m h).2).2 = m.handles h :=
  ⟨rfl, rfl, rfl⟩

/-- C7: every `ReferenceCounted` object is created with count 1, the global
counter is incremented (mod 2^64) on every construction and decremented on
every destruction, and along any valid lifecycle trace from process start
(0 live objects, counter 0) on which the number of live objects is
representable, the counter equals the number of currently-live objects. -/
theorem creation_count_one_and_live_counter :
    ReferenceCounted.new.ref_count_ = 1 ∧
    (∀ l t : Nat, stepLife (l, t) LifeEvent.construct = (l + 1, (t + 1) % U64)) ∧
    (∀ l t : Nat, stepLife (l, t) LifeEvent.destruct = (l - 1, (t + (U64 - 1)) % U64)) ∧
    (∀ es : List LifeEvent, validLife 0 es = true →
      (runLife (0, 0) es).1 < U64 →
      (runLife (0, 0) es).2 = (runLife (0, 0) es).1) := by
  refine ⟨rfl, fun _ _ => rfl, fun _ _ => rfl, ?_⟩
  intro es hv hlt
  have hmod := runLife_total_mod es 0 0 hv (by simp)
  rw [hmod, Nat.mod_eq_of_lt hlt]

/-- Witness for C7 at the trace `[construct, construct, destruct]`: one live
object remains and the counter reads 1. -/
theorem creation_count_one_and_live_counter_witness :
    validLife 0 [LifeEvent.construct, LifeEvent.construct, LifeEvent.destruct] = true ∧
    (runLife (0, 0) [LifeEvent.construct, LifeEvent.construct, LifeEvent.destruct]).1 = 1 ∧
    (runLife (0, 0) [LifeEvent.construct, LifeEvent.construct, LifeEvent.destruct]).2 =
      (runLife (0, 0) [LifeEvent.construct, LifeEvent.construct, LifeEvent.destruct]).1 :=
  ⟨by decide, by decide,
   creation_count_one_and_live_counter.2.2.2
     [LifeEvent.construct, LifeEvent.construct, LifeEvent.destruct]
     (by decide) (by decide)⟩

/-- C8: `TakeRef` on a null pointer yields exactly a default-constructed empty
handle and touches no state; on any empty handle cell, the boolean conversion
is `false`, and destruction, `release`, and `reset` perform no `DropRef`:
objects and the global counter are untouched. -/
theorem takeRef_null_is_empty :
    (∀ m : Mem, TakeRef m none = (m, RCReference.defaultNew)) ∧
    (∀ (m : Mem) (h : Nat), m.handles h = none →
      rcBool m h = false ∧
      handleDtor m h = m ∧
      (release m h).1.objs = m.objs ∧
      (release m h).1.total_objects = m.total_objects ∧
      (reset m h none).objs = m.objs ∧
      (reset m h none).total_objects = m.total_objects) := by
  constructor
  · intro m
    rfl
  · intro m h hnone
    refine ⟨?_, ?_, rfl, rfl, ?_, ?_⟩
    · simp [rcBool, hnone]
    · simp [handleDtor, hnone]
    · simp [reset, hnone]
    · simp [reset, hnone]

/-- Witness for C8 at the empty handle cell 1 of `mem1`. -/
theorem takeRef_null_is_empty_witness :
    rcBool mem1 1 = false ∧
    handleDtor mem1 1 = mem1 ∧
    (reset mem1 1 none).total_objects = mem1.total_objects :=
  ⟨(takeRef_null_is_empty.2 mem1 1 (by decide)).1,
   (takeRef_null_is_empty.2 mem1 1 (by decide)).2.1,
   (takeRef_null_is_empty.2 mem1 1 (by decide)).2.2.2.2.2⟩

/-- C9: `DropRef` performs no underflow check: on a count of 0 the unsigned
count wraps to 2^32 - 1 and the destroy hook is not invoked; the hook fires
exactly when the pre-decrement value is 1. -/
theorem dropRef_underflow_wraps :
    (∀ o : ReferenceCounted, o.ref_count_ = 0 →
      (o.DropRef).1.ref_count_ = U32 - 1 ∧ (o.DropRef).2 = false) ∧
    (∀ o : ReferenceCounted, (o.DropRef).2 = true ↔ o.ref_count_ = 1) := by
  constructor
  · intro o h0
    constructor
    · rw [DropRef_count, h0]
      decide
    · have hne : ¬ o.ref_count_ = 1 := by omega
      simpa [hne] using (DropRef_destroys_iff o).not
  · exact DropRef_destroys_iff

/-- Witness for C9 at count 0. -/
theorem dropRef_underflow_wraps_witness :
    (ReferenceCounted.DropRef { ref_count_ := 0, live := true }).1.ref_count_ = U32 - 1 ∧
    (ReferenceCounted.DropRef { ref_count_ := 0, live := true }).2 = false :=
  dropRef_underflow_wraps.1 { ref_count_ := 0, live := true } rfl

/-- C10: `get()` is a total pure read on every handle, empty included: it
performs no assertion (contrast `operator*`/`operator->`, whose assertion
fires on an empty handle in an assertion-enabled build), returns the held raw
pointer unchanged and leaves the memory unchanged; its result is non-null
exactly when the boolean conversion is true. -/
theorem get_is_total_pure_read :
    (∀ (m : Mem) (h : Nat), rcGet m h = (m, m.handles h)) ∧
    (∀ (m : Mem) (h : Nat), getAssertFires m h = false) ∧
    (∀ (m : Mem) (h : Nat), ((rcGet m h).2).isSome = rcBool m h) ∧
    (∀ (m : Mem) (h : Nat), m.handles h = none → derefAssertFires false m h = true) := by
  refine ⟨fun _ _ => rfl, fun _ _ => rfl, fun _ _ => rfl, ?_⟩
  intro m h hnone
  simp [derefAssertFires, hnone]

/-- Witness for C10 at the empty handle cell 1 of `mem1`. -/
theorem get_is_total_pure_read_witness :
    ((rcGet mem1 1).2).isSome = rcBool mem1 1 ∧
    derefAssertFires false mem1 1 = true :=
  ⟨get_is_total_pure_read.2.2.1 mem1 1,
   get_is_total_pure_read.2.2.2 mem1 1 (by decide)⟩
